import Mathlib

/-!
Verification development for the audio-processing pipeline orchestrator
(the `AudioProcessingImpl` coordinator of this repository).

The orchestrator implementation itself is not among the repository sources;
only its reference test suite (`audio_processing_impl_unittest.cc`) is.
The definitions below are therefore modelled from the specification
(`spec.md`, sections 3, 4.1-4.5 and 7), each one marked `Modelled from the
spec:` in its documentation, and they are checked for consistency with the
concrete behaviours the reference tests pin down (initial states, traces and
expected values).
-/

namespace WebrtcApm

/-- Modelled from the spec: the four supported sample rates of section 7
(`ConfigError` when the requested sample rate is not one of the four
supported rates). -/
def validSampleRateHz (r : Nat) : Bool :=
  r = 8000 || r = 16000 || r = 32000 || r = 48000

/-- Modelled from the spec: a `StreamConfig` is a (sampleRateHz, numChannels)
pair (section 3). -/
structure StreamConfig where
  sampleRateHz : Nat
  numChannels : Nat
deriving DecidableEq, Repr

/-- Modelled from the spec: a stream configuration is valid when its sample
rate is supported and it has at least one channel (section 7). -/
def StreamConfig.valid (c : StreamConfig) : Bool :=
  validSampleRateHz c.sampleRateHz && decide (1 ≤ c.numChannels)

/-- Modelled from the spec: the error taxonomy of section 7 restricted to the
statuses the stream-processing API returns per frame. -/
inductive ApmStatus where
  | noError
  | configError
deriving DecidableEq, Repr

/-- Modelled from the spec: the per-frame status of a stream-processing call
depends only on the validity of the presented format (section 7). -/
def statusOf (c : StreamConfig) : ApmStatus :=
  if c.valid then .noError else .configError

/-! ### FormatNegotiator (spec section 4.5, reinitialization rule of 4.1) -/

/-- Modelled from the spec: the two stream paths whose formats are tracked
independently (capture for `ProcessStream`, render for
`ProcessReverseStream`). -/
inductive StreamPath where
  | capture
  | render
deriving DecidableEq, Repr

/-- Modelled from the spec: the last-seen stream configuration per path, as
compared by the reinitialization rule of section 4.1; `none` before any
format has been seen on a path. -/
structure FormatState where
  captureCfg : Option StreamConfig
  renderCfg : Option StreamConfig
deriving DecidableEq, Repr

def FormatState.lastSeen (s : FormatState) : StreamPath → Option StreamConfig
  | .capture => s.captureCfg
  | .render => s.renderCfg

/-- Modelled from the spec: `NeedsReinit(role, newConfig)` compares a role's
(rate, channels) against the previously initialized value for that role
(section 4.5). -/
def needsReinit (last : Option StreamConfig) (c : StreamConfig) : Bool :=
  decide (last ≠ some c)

def recordCfg (s : FormatState) (p : StreamPath) (c : StreamConfig) : FormatState :=
  match p with
  | .capture => { s with captureCfg := some c }
  | .render => { s with renderCfg := some c }

/-- Modelled from the spec: one stream-processing call on path `p` presenting
format `c`. Returns the updated tracking state together with the number of
submodule reinitializations performed synchronously before that same frame is
processed (section 4.1: on any difference the coordinator rebuilds affected
submodules synchronously, under the lock, before processing that frame). -/
def stepFormat (s : FormatState) (p : StreamPath) (c : StreamConfig) :
    FormatState × Nat :=
  if needsReinit (s.lastSeen p) c then (recordCfg s p c, 1) else (s, 0)

/-- Modelled from the spec: the tracking state right after `Initialize()` with
the default processing configuration, 16 kHz mono on both paths (the
reference test processes (16000, 1) on both paths immediately after
`Initialize()` and expects no further reinitialization). -/
def formatStateAfterInit : FormatState :=
  { captureCfg := some ⟨16000, 1⟩, renderCfg := some ⟨16000, 1⟩ }

/-- Runs a sequence of stream-processing calls, returning the per-call
reinitialization counts. -/
def runFormat (s : FormatState) : List (StreamPath × StreamConfig) → List Nat
  | [] => []
  | pc :: rest =>
    let r := stepFormat s pc.1 pc.2
    r.2 :: runFormat r.1 rest

/-! ### Echo-path-change detection (spec section 4.1) -/

/-- Modelled from the spec: the scalars the coordinator tracks for echo-path
change detection — the last-applied pre-amplifier/level-adjustment gain, the
last applied analog input level, and the last recorded playout volume
(section 4.1). `none` before any value has been observed. -/
structure EchoPathState where
  prevPreGain : Option ℚ
  prevAnalogLevel : Option Nat
  prevPlayoutVolume : Option Int
deriving DecidableEq, Repr

/-- Modelled from the spec: what one processed capture frame carries for
echo-path change detection — the pre-amplifier gain in force, the applied
stream analog level, and the optional `PlayoutVolumeChange` runtime setting
applied on this frame. -/
structure CaptureFrameInput where
  preGain : ℚ
  analogLevel : Nat
  playoutVolumeSetting : Option Int
deriving DecidableEq, Repr

/-- A tracked value changed when a previous value exists and differs from the
current one; the first observation records without flagging a change
(section 4.1: first detectable difference since the previous frame). -/
def changedFrom {α : Type} [DecidableEq α] (last : Option α) (cur : α) : Bool :=
  match last with
  | none => false
  | some p => decide (p ≠ cur)

/-- Modelled from the spec: one processed capture frame. Returns the updated
tracking state and the `echoPathChange` flag passed to the echo controller's
capture-processing call: true for exactly the frame in which the pre-gain or
the applied analog level changed since the previous frame, or on which a
`PlayoutVolumeChange` setting differing from the previously recorded playout
volume is applied (section 4.1). -/
def stepEchoPath (s : EchoPathState) (f : CaptureFrameInput) :
    EchoPathState × Bool :=
  let preChanged := changedFrom s.prevPreGain f.preGain
  let lvlChanged := changedFrom s.prevAnalogLevel f.analogLevel
  let pv : Option Int × Bool :=
    match f.playoutVolumeSetting with
    | none => (s.prevPlayoutVolume, false)
    | some v => (some v, changedFrom s.prevPlayoutVolume v)
  ({ prevPreGain := some f.preGain,
     prevAnalogLevel := some f.analogLevel,
     prevPlayoutVolume := pv.1 },
   preChanged || lvlChanged || pv.2)

/-- Runs a sequence of capture frames, returning the per-frame
`echoPathChange` flags. -/
def runEchoPath (s : EchoPathState) : List CaptureFrameInput → List Bool
  | [] => []
  | f :: fs =>
    let r := stepEchoPath s f
    r.2 :: runEchoPath r.1 fs

/-! ### InputVolumeController (spec section 4.4) -/

/-- Modelled from the spec: the configuration bits that decide ownership of
the analog input channel and analog-mic-gain emulation (sections 3 and 4.4):
the AGC1 analog adaptive controller, the AGC2 input-volume controller, and
the capture-level-adjustment analog-mic-gain emulation. -/
structure InputVolumeConfig where
  agc1AnalogEnabled : Bool
  agc2InputVolumeControllerEnabled : Bool
  analogMicGainEmulationEnabled : Bool
deriving DecidableEq, Repr

/-- An analog-input-volume-owning controller is active when the AGC1 analog
controller or the AGC2 input-volume controller is enabled. -/
def InputVolumeConfig.analogOwning (c : InputVolumeConfig) : Bool :=
  c.agc1AnalogEnabled || c.agc2InputVolumeControllerEnabled

/-- Modelled from the spec: the default minimum input volume
(`kMinInputVolume` in the reference tests, used when no experiment override
supplies another value). -/
def kMinInputVolume : Nat := 12

/-- Modelled from the spec: the minimum-volume floor of section 4.4 — if the
candidate value is exactly 0 the floor is not applied and 0 passes through
unchanged (explicit mute signal), otherwise the result is
`max(candidate, MinVolume)`. -/
def applyMinVolumeFloor (minVolume candidate : Nat) : Nat :=
  if candidate = 0 then 0 else max candidate minVolume

/-- Modelled from the spec: the recommended input volume for one processed
capture frame given the operative minimum volume, the externally applied
volume and the controller's candidate value (section 4.4): under
analog-mic-gain emulation the applied volume is returned; with an
analog-owning controller active the floored candidate is returned; with no
analog-owning controller the applied volume is returned identically. -/
def recommendedInputVolume (c : InputVolumeConfig) (minVolume applied candidate : Nat) :
    Nat :=
  if c.analogMicGainEmulationEnabled then applied
  else if c.analogOwning then applyMinVolumeFloor minVolume candidate
  else applied

/-- Modelled from the spec: on the first processed frame no automatic
adjustment has happened yet, so the candidate equals the applied startup
volume. -/
def firstFrameRecommendedVolume (c : InputVolumeConfig) (minVolume v : Nat) : Nat :=
  recommendedInputVolume c minVolume v v

/-- Modelled from the spec: `n` rounds of the input-volume loop of the
reference tests — set the applied volume, process one frame, feed the
recommendation back as the next applied volume. `adjust` abstracts the active
controller's per-frame automatic volume adaptation. -/
def processInputVolumeFrames (c : InputVolumeConfig) (minVolume : Nat)
    (adjust : Nat → Nat) : Nat → Nat → Nat
  | 0, v => v
  | n + 1, v =>
    processInputVolumeFrames c minVolume adjust n
      (recommendedInputVolume c minVolume v (adjust v))

/-- Modelled from the spec: the externally applied volume together with the
internally emulated microphone level of the capture-level-adjustment layer
(section 4.4, analog-mic-gain emulation). -/
structure EmulatedVolumeState where
  appliedVolume : Nat
  emulatedLevel : Nat
deriving DecidableEq, Repr

/-- Modelled from the spec: one processed capture frame under the emulation
contract of section 4.4 — with analog-mic-gain emulation enabled an active
input-volume controller adjusts only the internally emulated level and the
externally recommended volume equals the externally applied volume; without
emulation the ordinary recommendation of `recommendedInputVolume` is
returned. Returns the new state and the recommended volume. -/
def stepEmulatedVolume (c : InputVolumeConfig) (minVolume : Nat)
    (adjust : Nat → Nat) (s : EmulatedVolumeState) : EmulatedVolumeState × Nat :=
  if c.analogMicGainEmulationEnabled then
    ({ s with
        emulatedLevel := if c.analogOwning then adjust s.emulatedLevel
                         else s.emulatedLevel },
     s.appliedVolume)
  else
    (s, recommendedInputVolume c minVolume s.appliedVolume (adjust s.appliedVolume))

/-- Runs `n` capture frames of the emulated-volume state machine, returning
the per-frame recommended volumes. -/
def runEmulatedVolume (c : InputVolumeConfig) (minVolume : Nat)
    (adjust : Nat → Nat) : Nat → EmulatedVolumeState → List Nat
  | 0, _ => []
  | n + 1, s =>
    let r := stepEmulatedVolume c minVolume adjust s
    r.2 :: runEmulatedVolume c minVolume adjust n r.1

/-! ### Render pipeline ordering (spec sections 4.1 and 6) -/

/-- Modelled from the spec: the render-side state of the coordinator — the
queue of render frames already transformed by the injected render
pre-processor and awaiting the echo detector's render analysis (section 4.1:
pre-processing output, never raw render samples, reaches the detector,
whichever public call triggers the analysis). -/
structure RenderState where
  pendingDetectorFrames : List (List ℚ)
deriving DecidableEq, Repr

/-- Modelled from the spec: the injected render pre-processor transforms every
sample of every channel of the render frame (the reference
`TestRenderPreProcessor` applies its sample transform pointwise). -/
def applyRenderPreProcessor (pre : ℚ → ℚ) (frame : List ℚ) : List ℚ :=
  frame.map pre

/-- Modelled from the spec: `ProcessReverseStream` runs the render chain — the
render pre-processor transforms the frame first, and only the transformed
frame is queued for the echo detector's render analysis. Returns the new
render state and the render output frame. -/
def processReverseStream (pre : ℚ → ℚ) (s : RenderState) (frame : List ℚ) :
    RenderState × List ℚ :=
  let pf := applyRenderPreProcessor pre frame
  ({ pendingDetectorFrames := s.pendingDetectorFrames ++ [pf] }, pf)

/-- Modelled from the spec: the echo detector's render-analysis call, however
triggered (`ProcessStream` or `ProcessReverseStream`), consumes the oldest
queued pre-processed render frame; returns the samples the detector observes,
`none` when no render frame is pending. -/
def detectorAnalyzeRender (s : RenderState) : RenderState × Option (List ℚ) :=
  match s.pendingDetectorFrames with
  | [] => (s, none)
  | f :: fs => ({ pendingDetectorFrames := fs }, some f)

/-- Modelled from the spec: the sample transform of the reference
`TestRenderPreProcessor`, doubling every sample. -/
def testRenderPreProcessorSample (x : ℚ) : ℚ := 2 * x

/-! ### RuntimeSettingsQueue (spec section 4.2) -/

/-- Modelled from the spec: the bounded FIFO runtime-settings mailbox of
section 4.2, with fixed capacity and current contents in enqueue order. -/
structure SettingsQueue (α : Type) where
  capacity : Nat
  items : List α
deriving DecidableEq, Repr

/-- Modelled from the spec: `Post(setting)` — wait-free insert; returns false
without blocking and leaves the queue unchanged when full (section 4.2). -/
def SettingsQueue.post {α : Type} (q : SettingsQueue α) (x : α) :
    SettingsQueue α × Bool :=
  if q.items.length < q.capacity then ({ q with items := q.items ++ [x] }, true)
  else (q, false)

/-- Posts a list of settings in order, returning the final queue and the
per-post results. -/
def SettingsQueue.postMany {α : Type} (q : SettingsQueue α) :
    List α → SettingsQueue α × List Bool
  | [] => (q, [])
  | x :: xs =>
    let r := q.post x
    let rest := r.1.postMany xs
    (rest.1, r.2 :: rest.2)

/-- Modelled from the spec: the drain performed once per processed capture
frame at the start of `ProcessStream` — the whole queue is emptied and every
queued setting is applied exactly once, in enqueue order, before the capture
chain runs (sections 4.1 and 4.2). Returns the drained queue and the settings
in application order. -/
def SettingsQueue.drain {α : Type} (q : SettingsQueue α) :
    SettingsQueue α × List α :=
  ({ q with items := [] }, q.items)

/-! ### ConfigAdjuster (spec section 4.3) -/

/-- Modelled from the spec: the gain-controller-1 options that take part in
analog-ownership resolution (section 3): overall enable, the analog gain
controller enable, and its digital-adaptive flag. -/
structure GainController1Cfg where
  enabled : Bool
  analogGainControllerEnabled : Bool
  enableDigitalAdaptive : Bool
deriving DecidableEq, Repr

/-- Modelled from the spec: the gain-controller-2 options that take part in
analog-ownership resolution (section 3): overall enable, the adaptive-digital
flag, and the input-volume controller enable. -/
structure GainController2Cfg where
  enabled : Bool
  adaptiveDigitalEnabled : Bool
  inputVolumeControllerEnabled : Bool
deriving DecidableEq, Repr

/-- Modelled from the spec: the slice of the nested submodule configuration
record the ConfigAdjuster resolves (section 3). -/
structure ApmConfig where
  gainController1 : GainController1Cfg
  gainController2 : GainController2Cfg
deriving DecidableEq, Repr

/-- Gain controller 1's analog path owns the analog input channel when both
its overall enable and its analog gain controller enable are requested. -/
def agc1OwnsAnalog (c : ApmConfig) : Bool :=
  c.gainController1.enabled && c.gainController1.analogGainControllerEnabled

/-- Gain controller 2's input-volume controller is requested to own the
analog channel either directly in the requested config or through the
input-volume-controller experiment override (section 4.3: experiment
overrides enter the pure resolver as an explicit argument). -/
def agc2IvcRequested (experimentIvcEnabled : Bool) (c : ApmConfig) : Bool :=
  experimentIvcEnabled || c.gainController2.inputVolumeControllerEnabled

/-- Both controllers are requested to own the analog input channel. -/
def analogOwnershipConflict (experimentIvcEnabled : Bool) (c : ApmConfig) : Bool :=
  agc1OwnsAnalog c && agc2IvcRequested experimentIvcEnabled c

/-- Modelled from the spec: the pure ConfigAdjuster of section 4.3 — if gain
controller 1's analog path and gain controller 2's input-volume controller
are both requested to own the analog channel, the adjuster demotes gain
controller 1's analog ownership and promotes gain controller 2 to sole owner
with its input-volume controller enabled, merging each side's independently
requested digital-adaptive flags into the adaptive-digital enable of gain
controller 2; configurations without such a conflict are returned
unchanged. -/
def adjustConfig (experimentIvcEnabled : Bool) (c : ApmConfig) : ApmConfig :=
  if analogOwnershipConflict experimentIvcEnabled c then
    { gainController1 :=
        { c.gainController1 with
            enabled := false,
            analogGainControllerEnabled := false },
      gainController2 :=
        { enabled := true,
          adaptiveDigitalEnabled :=
            c.gainController1.enableDigitalAdaptive ||
              c.gainController2.adaptiveDigitalEnabled,
          inputVolumeControllerEnabled := true } }
  else c

/-! ### Submodule creation override (reference tests, spec section 3) -/

/-- Modelled from the spec: the submodule-creation override of the reference
tests (`ApmSubmoduleCreationOverrides`) — `transientSuppression = true`
excludes creation of the transient suppressor. -/
structure SubmoduleCreationOverrides where
  transientSuppression : Bool
deriving DecidableEq, Repr

/-- Modelled from the spec: the applied-config toggle for transient
suppression (section 3: submodules live by enable/disable toggling through
`ApplyConfig`). -/
structure CaptureChainConfig where
  transientSuppressionEnabled : Bool
deriving DecidableEq, Repr

/-- A submodule runs only when it is both enabled in the applied config and
actually constructed; a creation override excludes construction
(reference tests `ApmWithSubmodulesExcludedTest`). -/
def transientSuppressorActive (ov : SubmoduleCreationOverrides)
    (cfg : CaptureChainConfig) : Bool :=
  cfg.transientSuppressionEnabled && !ov.transientSuppression

/-- Modelled from the spec: one capture frame through the fixed capture chain
of section 4.1, with the transient-suppressor slot made explicit. `rest`
abstracts the composition of the other capture submodules and `ts` the
transient suppressor's per-frame transform; an excluded submodule is never
constructed, so the frame passes its slot unchanged. -/
def processCaptureFrame (ov : SubmoduleCreationOverrides)
    (cfg : CaptureChainConfig) (rest ts : List ℚ → List ℚ)
    (frame : List ℚ) : List ℚ :=
  let afterRest := rest frame
  if transientSuppressorActive ov cfg then ts afterRest else afterRest

/-- Processes a sequence of capture frames frame by frame. -/
def processCaptureFrames (ov : SubmoduleCreationOverrides)
    (cfg : CaptureChainConfig) (rest ts : List ℚ → List ℚ)
    (frames : List (List ℚ)) : List (List ℚ) :=
  frames.map (processCaptureFrame ov cfg rest ts)

/-- Modelled from the spec: the status a `ProcessStream` call returns depends
only on the validity of the presented format, never on which optional
submodules exist or are enabled (section 7). -/
def processStreamStatus (ov : SubmoduleCreationOverrides)
    (cfg : CaptureChainConfig) (c : StreamConfig) : ApmStatus :=
  statusOf c

/-! ## Theorems -/

/-- C1: on every processed capture frame with an analog-input-volume-owning
controller active (and no analog-mic-gain emulation), a nonzero candidate is
floored to `max(candidate, MinVolume)` while a candidate of exactly 0 passes
through unchanged; in particular, with `MinVolume = 12` the first processed
frame recommends `max(v, 12)` for startup volumes `v ∈ {5, 30}` and `0` for
`v = 0`. -/
theorem minVolumeFloorOnRecommendedVolume (c : InputVolumeConfig)
    (minVolume applied candidate : Nat)
    (hown : c.analogOwning = true)
    (hem : c.analogMicGainEmulationEnabled = false) :
    (candidate ≠ 0 →
      recommendedInputVolume c minVolume applied candidate
        = max candidate minVolume) ∧
    (candidate = 0 →
      recommendedInputVolume c minVolume applied candidate = 0) ∧
    firstFrameRecommendedVolume c 12 5 = max 5 12 ∧
    firstFrameRecommendedVolume c 12 30 = max 30 12 ∧
    firstFrameRecommendedVolume c 12 0 = 0 := by
  refine ⟨fun h => ?_, fun h => ?_, ?_, ?_, ?_⟩ <;>
    simp_all [recommendedInputVolume, firstFrameRecommendedVolume,
      applyMinVolumeFloor, hown, hem]

/-- Witness for the C1 theorem at startup volumes 5, 30 and 0 with the AGC1
analog controller owning the analog channel and `MinVolume = 12`. -/
theorem minVolumeFloorOnRecommendedVolume_witness :
    firstFrameRecommendedVolume ⟨true, false, false⟩ 12 5 = 12 ∧
    firstFrameRecommendedVolume ⟨true, false, false⟩ 12 30 = 30 ∧
    firstFrameRecommendedVolume ⟨true, false, false⟩ 12 0 = 0 := by
  have h := minVolumeFloorOnRecommendedVolume ⟨true, false, false⟩ 12 5 5
    rfl rfl
  exact ⟨by simpa using h.2.2.1, by simpa using h.2.2.2.1, h.2.2.2.2⟩

/-- C2: for every valid (rate, channels) pair differing from the pair
previously seen on the same path, the first call presenting the new pair
performs exactly one submodule reinitialization, synchronously with that same
call, and records the new pair; a call presenting an unchanged pair performs
none and leaves the state untouched. The reference-test trace from the
post-initialization state yields reinitialization counts
[0, 0, 1, 1, 1, 1]. -/
theorem formatChangeTriggersExactlyOneReinit (s : FormatState)
    (p : StreamPath) (c : StreamConfig) (hvalid : c.valid = true) :
    (s.lastSeen p ≠ some c →
      (stepFormat s p c).2 = 1 ∧ (stepFormat s p c).1.lastSeen p = some c) ∧
    (s.lastSeen p = some c →
      (stepFormat s p c).2 = 0 ∧ (stepFormat s p c).1 = s) ∧
    runFormat formatStateAfterInit
      [(.capture, ⟨16000, 1⟩), (.render, ⟨16000, 1⟩), (.capture, ⟨32000, 1⟩),
       (.capture, ⟨32000, 2⟩), (.render, ⟨32000, 2⟩), (.render, ⟨16000, 2⟩)]
      = [0, 0, 1, 1, 1, 1] := by
  refine ⟨fun h => ?_, fun h => ?_, by decide⟩
  · constructor
    · simp [stepFormat, needsReinit, h]
    · cases p <;>
        simp_all [stepFormat, needsReinit, recordCfg, FormatState.lastSeen]
  · simp [stepFormat, needsReinit, h]

/-- Witness for the C2 theorem: a changed capture format reinitializes once,
an unchanged one not at all. -/
theorem formatChangeTriggersExactlyOneReinit_witness :
    (stepFormat formatStateAfterInit .capture ⟨32000, 1⟩).2 = 1 ∧
    (stepFormat formatStateAfterInit .capture ⟨16000, 1⟩).2 = 0 := by
  have h1 := formatChangeTriggersExactlyOneReinit formatStateAfterInit
    .capture ⟨32000, 1⟩ (by decide)
  have h2 := formatChangeTriggersExactlyOneReinit formatStateAfterInit
    .capture ⟨16000, 1⟩ (by decide)
  exact ⟨(h1.1 (by decide)).1, (h2.2.1 (by decide)).1⟩

/-- C3: with no playout-volume setting on the frame, the echo controller's
capture-processing call receives `echoPathChange = true` exactly when the
pre-amplifier gain or the applied analog input level differs from the
previous frame's value; changing the pre-gain (or the analog level) between
frames N and N+1 yields false on N, true on N+1 and false on N+2 when
nothing changes thereafter. -/
theorem echoPathChangeOnPreGainOrAnalogLevelChange (s : EchoPathState)
    (g g' : ℚ) (l l' : Nat) (pv : Option Int) (hg : g ≠ g') (hl : l ≠ l') :
    (∀ f : CaptureFrameInput, f.playoutVolumeSetting = none →
      ∀ g0 l0, s.prevPreGain = some g0 → s.prevAnalogLevel = some l0 →
      (stepEchoPath s f).2
        = (decide (g0 ≠ f.preGain) || decide (l0 ≠ f.analogLevel))) ∧
    runEchoPath ⟨some g, some l, pv⟩
      [⟨g, l, none⟩, ⟨g', l, none⟩, ⟨g', l, none⟩] = [false, true, false] ∧
    runEchoPath ⟨some g, some l, pv⟩
      [⟨g, l, none⟩, ⟨g, l', none⟩, ⟨g, l', none⟩] = [false, true, false] := by
  refine ⟨fun f hf g0 l0 hp0 hl0 => ?_, ?_, ?_⟩
  · simp [stepEchoPath, changedFrom, hf, hp0, hl0]
  · simp [runEchoPath, stepEchoPath, changedFrom, hg, hl]
  · simp [runEchoPath, stepEchoPath, changedFrom, hg, hl]

/-- Witness for the C3 theorem on concrete three-frame traces: a pre-gain
change from 1 to 2, and an analog-level change from 0 to 5. -/
theorem echoPathChangeOnPreGainOrAnalogLevelChange_witness :
    runEchoPath ⟨some 1, some 0, none⟩
      [⟨1, 0, none⟩, ⟨2, 0, none⟩, ⟨2, 0, none⟩] = [false, true, false] ∧
    runEchoPath ⟨some 1, some 0, none⟩
      [⟨1, 0, none⟩, ⟨1, 5, none⟩, ⟨1, 5, none⟩] = [false, true, false] := by
  have h := echoPathChangeOnPreGainOrAnalogLevelChange ⟨some 1, some 0, none⟩
    1 2 0 5 none (by norm_num) (by norm_num)
  exact ⟨h.2.1, h.2.2⟩

/-- C4: on a frame applying a `PlayoutVolumeChange` setting (gain and analog
level unchanged), the echo controller receives `echoPathChange = true`
exactly when the setting's value differs from the previously recorded playout
volume, and the value becomes the recorded one; the reference-test trace —
no setting, then 50, 50, 100 from a state with no recorded playout volume —
yields [false, false, false, true]. -/
theorem playoutVolumeChangeForcesEchoPathChange (s : EchoPathState)
    (p v : Int) (g : ℚ) (l : Nat)
    (hg : s.prevPreGain = some g) (hl : s.prevAnalogLevel = some l)
    (hp : s.prevPlayoutVolume = some p) :
    (stepEchoPath s ⟨g, l, some v⟩).2 = decide (p ≠ v) ∧
    (stepEchoPath s ⟨g, l, some v⟩).1.prevPlayoutVolume = some v ∧
    runEchoPath ⟨some g, some l, none⟩
      [⟨g, l, none⟩, ⟨g, l, some 50⟩, ⟨g, l, some 50⟩, ⟨g, l, some 100⟩]
      = [false, false, false, true] := by
  refine ⟨?_, ?_, ?_⟩
  · simp [stepEchoPath, changedFrom, hg, hl, hp]
  · simp [stepEchoPath]
  · simp [runEchoPath, stepEchoPath, changedFrom]

/-- Witness for the C4 theorem: from recorded playout volume 50, a setting of
100 forces the flag, a repeated 50 does not. -/
theorem playoutVolumeChangeForcesEchoPathChange_witness :
    (stepEchoPath ⟨some 1, some 0, some 50⟩ ⟨1, 0, some 100⟩).2 = true ∧
    (stepEchoPath ⟨some 1, some 0, some 50⟩ ⟨1, 0, some 50⟩).2 = false := by
  have h1 := playoutVolumeChangeForcesEchoPathChange ⟨some 1, some 0, some 50⟩
    50 100 1 0 rfl rfl rfl
  have h2 := playoutVolumeChangeForcesEchoPathChange ⟨some 1, some 0, some 50⟩
    50 50 1 0 rfl rfl rfl
  constructor
  · rw [h1.1]; decide
  · rw [h2.1]; decide

/-- C5: the echo detector's render analysis observes exactly the
pre-processed render frame — the injected render pre-processor transforms the
frame before the detector's render-analysis call, whichever public call
triggers it; with the doubling pre-processor and a frame whose first sample
is 1000, the detector observes 2000 there. -/
theorem renderPreProcessorBeforeEchoDetector (pre : ℚ → ℚ)
    (frame : List ℚ) (s0 : RenderState)
    (h0 : s0.pendingDetectorFrames = []) :
    (detectorAnalyzeRender (processReverseStream pre s0 frame).1).2
      = some (applyRenderPreProcessor pre frame) ∧
    (detectorAnalyzeRender
        (processReverseStream testRenderPreProcessorSample s0
          (1000 :: frame)).1).2
      = some (2000 :: frame.map testRenderPreProcessorSample) := by
  constructor
  · simp [processReverseStream, detectorAnalyzeRender, h0]
  · simp [processReverseStream, detectorAnalyzeRender,
      applyRenderPreProcessor, h0, testRenderPreProcessorSample]
    norm_num

/-- Witness for the C5 theorem: the doubling pre-processor on the one-sample
render frame [1000] makes the detector observe [2000]. -/
theorem renderPreProcessorBeforeEchoDetector_witness :
    (detectorAnalyzeRender
        (processReverseStream testRenderPreProcessorSample ⟨[]⟩ [1000]).1).2
      = some [2000] := by
  have h := renderPreProcessorBeforeEchoDetector testRenderPreProcessorSample
    [] ⟨[]⟩ rfl
  simpa using h.2

/-- Helper for C6: posting a list that fits in the remaining capacity succeeds
for every element and appends the elements in order, preserving the
capacity. -/
theorem SettingsQueue.postMany_fits {α : Type} :
    ∀ (xs : List α) (q : SettingsQueue α),
      q.items.length + xs.length ≤ q.capacity →
      (q.postMany xs).2 = List.replicate xs.length true ∧
      (q.postMany xs).1.items = q.items ++ xs ∧
      (q.postMany xs).1.capacity = q.capacity := by
  intro xs
  induction xs with
  | nil => intro q h; simp [postMany]
  | cons x xs ih =>
    intro q h
    have hlt : q.items.length < q.capacity := by
      simp at h; omega
    have hrec := ih { q with items := q.items ++ [x] } (by simp at h ⊢; omega)
    simp only [postMany, post, hlt, if_pos]
    refine ⟨?_, ?_, ?_⟩
    · simp [hrec.1, List.replicate_succ]
    · simp [hrec.2.1]
    · simpa using hrec.2.2

/-- C6: a queue holding `s` settings accepts exactly `capacity − s` further
posts (each returning true), after which a post returns false and leaves the
queue unchanged; the drain performed by one `ProcessStream` call hands every
queued setting over in enqueue order and restores the full capacity, so
`capacity` further posts all succeed again. -/
theorem postAcceptsExactlyCapacityMinusSize {α : Type} (q : SettingsQueue α)
    (xs : List α) (y z : α)
    (hsz : q.items.length ≤ q.capacity)
    (hfill : xs.length = q.capacity - q.items.length) :
    (q.postMany xs).2 = List.replicate xs.length true ∧
    ((q.postMany xs).1.post y).2 = false ∧
    ((q.postMany xs).1.post y).1 = (q.postMany xs).1 ∧
    (q.postMany xs).1.drain.2 = q.items ++ xs ∧
    ((q.postMany xs).1.drain.1.postMany (List.replicate q.capacity z)).2
      = List.replicate q.capacity true := by
  have hfit : q.items.length + xs.length ≤ q.capacity := by omega
  have h := SettingsQueue.postMany_fits xs q hfit
  have hfull : (q.postMany xs).1.items.length = q.capacity := by
    rw [h.2.1]; simp; omega
  have hnot : ¬ (q.postMany xs).1.items.length < (q.postMany xs).1.capacity := by
    rw [hfull, h.2.2]; omega
  have hdrain := SettingsQueue.postMany_fits (List.replicate q.capacity z)
    (q.postMany xs).1.drain.1
    (by simp [SettingsQueue.drain, h.2.2])
  refine ⟨h.1, ?_, ?_, ?_, ?_⟩
  · simp [SettingsQueue.post, hnot]
  · simp [SettingsQueue.post, hnot]
  · simp [SettingsQueue.drain, h.2.1]
  · simpa using hdrain.1

/-- Witness for the C6 theorem on a queue of capacity 3 holding one setting:
two further posts succeed, the next fails, and the drain yields all three in
order. -/
theorem postAcceptsExactlyCapacityMinusSize_witness :
    ((SettingsQueue.mk 3 [7] : SettingsQueue Nat).postMany [1, 2]).2
      = [true, true] ∧
    (((SettingsQueue.mk 3 [7] : SettingsQueue Nat).postMany [1, 2]).1.post 9).2
      = false ∧
    ((SettingsQueue.mk 3 [7] : SettingsQueue Nat).postMany [1, 2]).1.drain.2
      = [7, 1, 2] := by
  have h := postAcceptsExactlyCapacityMinusSize
    (SettingsQueue.mk 3 [7] : SettingsQueue Nat) [1, 2] 9 0
    (by decide) (by decide)
  exact ⟨by simpa using h.1, h.2.1, h.2.2.2.1⟩

/-- C7: with no analog-input-volume-owning controller enabled and no
emulation, the recommended volume equals the applied volume identically, on
every processed frame and for every applied volume, whatever automatic
adjustment the (inactive) controller would compute. -/
theorem noAgcRecommendsAppliedVolume (c : InputVolumeConfig)
    (minVolume : Nat) (adjust : Nat → Nat)
    (h1 : c.agc1AnalogEnabled = false)
    (h2 : c.agc2InputVolumeControllerEnabled = false)
    (hem : c.analogMicGainEmulationEnabled = false) :
    ∀ n v, processInputVolumeFrames c minVolume adjust n v = v := by
  intro n
  induction n with
  | zero => intro v; rfl
  | succ k ih =>
    intro v
    have hrec : recommendedInputVolume c minVolume v (adjust v) = v := by
      simp [recommendedInputVolume, InputVolumeConfig.analogOwning, h1, h2, hem]
    simp [processInputVolumeFrames, hrec, ih]

/-- Witness for the C7 theorem at applied volumes 0, 59, 123 and 135 over one
processed frame, with a nontrivial would-be adjustment. -/
theorem noAgcRecommendsAppliedVolume_witness :
    processInputVolumeFrames ⟨false, false, false⟩ 12 (fun v => v + 1) 1 0 = 0 ∧
    processInputVolumeFrames ⟨false, false, false⟩ 12 (fun v => v + 1) 1 59 = 59 ∧
    processInputVolumeFrames ⟨false, false, false⟩ 12 (fun v => v + 1) 1 123 = 123 ∧
    processInputVolumeFrames ⟨false, false, false⟩ 12 (fun v => v + 1) 1 135 = 135 := by
  have h := noAgcRecommendsAppliedVolume ⟨false, false, false⟩ 12
    (fun v => v + 1) rfl rfl rfl
  exact ⟨h 1 0, h 1 59, h 1 123, h 1 135⟩

/-- C8: under analog-mic-gain emulation the externally recommended input
volume equals the externally applied input volume on every processed frame,
for every applied volume and whatever per-frame adjustment an active
input-volume controller performs on the internally emulated level — the
emulated level never leaks into the returned value. -/
theorem emulationRecommendsAppliedVolume (c : InputVolumeConfig)
    (minVolume : Nat) (adjust : Nat → Nat)
    (hem : c.analogMicGainEmulationEnabled = true) :
    (∀ applied candidate,
      recommendedInputVolume c minVolume applied candidate = applied) ∧
    (∀ s : EmulatedVolumeState,
      (stepEmulatedVolume c minVolume adjust s).2 = s.appliedVolume ∧
      (stepEmulatedVolume c minVolume adjust s).1.appliedVolume
        = s.appliedVolume) ∧
    (∀ n s, ∀ r ∈ runEmulatedVolume c minVolume adjust n s,
      r = s.appliedVolume) := by
  refine ⟨fun applied candidate => ?_, fun s => ?_, ?_⟩
  · simp [recommendedInputVolume, hem]
  · constructor <;> simp [stepEmulatedVolume, hem]
  · intro n
    induction n with
    | zero => intro s r hr; simp [runEmulatedVolume] at hr
    | succ k ih =>
      intro s r hr
      simp only [runEmulatedVolume, stepEmulatedVolume, hem, if_pos,
        List.mem_cons] at hr
      rcases hr with h | h
      · exact h
      · simpa using ih _ r h

/-- Witness for the C8 theorem: with emulation and an active AGC that keeps
forcing the emulated level to 77, two processed frames still recommend the
applied volume 123 each time. -/
theorem emulationRecommendsAppliedVolume_witness :
    recommendedInputVolume ⟨true, false, true⟩ 12 123 5 = 123 ∧
    runEmulatedVolume ⟨true, false, true⟩ 12 (fun _ => 77) 2 ⟨123, 255⟩
      = [123, 123] := by
  have h := emulationRecommendsAppliedVolume ⟨true, false, true⟩ 12
    (fun _ => 77) rfl
  exact ⟨h.1 123 5, by decide⟩

/-- C9: when gain controller 1's analog path and gain controller 2's
input-volume controller are both requested to own the analog input channel,
the adjusted configuration (observable via `GetConfig` after `ApplyConfig`)
disables gain controller 1 and its analog path, enables gain controller 2
with its input-volume controller as sole owner, and derives the
adaptive-digital enable from the two independently requested digital-adaptive
flags while leaving gain controller 1's digital-adaptive request itself
untouched; a configuration without such a conflict is returned unchanged. -/
theorem configAdjusterResolvesAnalogOwnershipConflict (e : Bool)
    (c : ApmConfig) :
    (analogOwnershipConflict e c = true →
      (adjustConfig e c).gainController1.enabled = false ∧
      (adjustConfig e c).gainController1.analogGainControllerEnabled = false ∧
      (adjustConfig e c).gainController1.enableDigitalAdaptive
        = c.gainController1.enableDigitalAdaptive ∧
      (adjustConfig e c).gainController2.enabled = true ∧
      (adjustConfig e c).gainController2.inputVolumeControllerEnabled = true ∧
      (adjustConfig e c).gainController2.adaptiveDigitalEnabled
        = (c.gainController1.enableDigitalAdaptive ||
            c.gainController2.adaptiveDigitalEnabled)) ∧
    (analogOwnershipConflict e c = false → adjustConfig e c = c) := by
  constructor
  · intro h; simp [adjustConfig, h]
  · intro h; simp [adjustConfig, h]

/-- Witness for the C9 theorem: the hybrid-AGC request under the experiment
is demoted and promoted as the reference test expects, and the same request
without the experiment is returned unchanged. -/
theorem configAdjusterResolvesAnalogOwnershipConflict_witness :
    (adjustConfig true ⟨⟨true, true, false⟩, ⟨true, true, false⟩⟩)
      = ⟨⟨false, false, false⟩, ⟨true, true, true⟩⟩ ∧
    adjustConfig false ⟨⟨true, true, false⟩, ⟨true, true, false⟩⟩
      = ⟨⟨true, true, false⟩, ⟨true, true, false⟩⟩ := by
  have h1 := configAdjusterResolvesAnalogOwnershipConflict true
    ⟨⟨true, true, false⟩, ⟨true, true, false⟩⟩
  have h2 := configAdjusterResolvesAnalogOwnershipConflict false
    ⟨⟨true, true, false⟩, ⟨true, true, false⟩⟩
  have hd := h1.1 rfl
  refine ⟨?_, h2.2 rfl⟩
  have he := hd.1
  simp only [adjustConfig] at he ⊢
  decide

/-- C10: with the transient suppressor excluded by the submodule-creation
override, enabling it in the applied config yields output bit-identical,
frame by frame, to a pipeline with the suppressor disabled, for every input
sequence and every suppressor transform; processing keeps returning
`noError` for every valid format whatever the toggle state, in particular on
the reference test's format sequence. -/
theorem excludedSubmoduleBitexactWithDisabled (rest ts : List ℚ → List ℚ)
    (frames : List (List ℚ)) (enabledWhileExcluded : Bool)
    (c : StreamConfig) (hc : c.valid = true) :
    processCaptureFrames ⟨true⟩ ⟨true⟩ rest ts frames
      = processCaptureFrames ⟨false⟩ ⟨false⟩ rest ts frames ∧
    processStreamStatus ⟨true⟩ ⟨enabledWhileExcluded⟩ c = .noError ∧
    [processStreamStatus ⟨true⟩ ⟨true⟩ ⟨16000, 1⟩,
     processStreamStatus ⟨true⟩ ⟨true⟩ ⟨16000, 2⟩,
     processStreamStatus ⟨true⟩ ⟨true⟩ ⟨48000, 2⟩,
     processStreamStatus ⟨true⟩ ⟨false⟩ ⟨16000, 1⟩,
     processStreamStatus ⟨true⟩ ⟨true⟩ ⟨16000, 1⟩]
      = List.replicate 5 .noError := by
  refine ⟨?_, ?_, by decide⟩
  · simp [processCaptureFrames, processCaptureFrame, transientSuppressorActive]
  · simp [processStreamStatus, statusOf, hc]

/-- Witness for the C10 theorem: two concrete frames through an excluded but
enabled suppressor equal the disabled pipeline's frames, and the valid format
(16000, 1) keeps returning `noError`. -/
theorem excludedSubmoduleBitexactWithDisabled_witness :
    processCaptureFrames ⟨true⟩ ⟨true⟩ id (List.map (fun x => x + 1))
        [[1, 2], [3]]
      = processCaptureFrames ⟨false⟩ ⟨false⟩ id (List.map (fun x => x + 1))
        [[1, 2], [3]] ∧
    processStreamStatus ⟨true⟩ ⟨true⟩ ⟨16000, 1⟩ = .noError := by
  have h := excludedSubmoduleBitexactWithDisabled id
    (List.map (fun x => x + 1)) [[1, 2], [3]] true ⟨16000, 1⟩ (by decide)
  exact ⟨h.1, h.2.1⟩

end WebrtcApm
